import Mathlib

/-!
Verification of the F1-Race-Replay selection menu (`src/menu.py`).

The menu is embedded as a pure state machine: `MenuState` carries every
mutable attribute of `RaceSelectionMenu`, and each event handler of the
Python class becomes a function `MenuState → MenuState`.  The external
collaborator `get_season_events` (which may raise) is a parameter of type
`Fetch := Int → Except String (List Event)`: an `Except.error` models a
raised exception whose `str` is the carried message.  Callback invocations
and `close()` calls are recorded in the `calls` and `closed` fields.
-/

namespace F1Menu

/-- An event record as used by the menu: `round`, `name`, `has_sprint`. -/
structure Event where
  round : Int
  name : String
  has_sprint : Bool
deriving DecidableEq, Repr

/-- A pixel rectangle `(x, y, w, h)` as stored in the Python tuples. -/
structure Rect where
  x : Int
  y : Int
  w : Int
  h : Int
deriving DecidableEq, Repr

/-- An entry of `self.year_buttons`. -/
structure YearButton where
  year : Int
  rect : Rect
  selected : Bool
deriving DecidableEq, Repr

/-- An entry of `self.race_buttons`. -/
structure RaceButton where
  event : Event
  rect : Rect
  visible : Bool
deriving DecidableEq, Repr

/-- An entry of `self.session_buttons`. -/
structure SessionButton where
  type : String
  label : String
  rect : Rect
deriving DecidableEq, Repr

/-- Constant `self.max_visible_races`, set once in `__init__` and never changed. -/
def max_visible_races : Int := 8

/-- The mutable state of `RaceSelectionMenu`, plus an effect log:
`calls` records each invocation of the `on_race_selected` callback and
`closed` records whether `close()` has been called. -/
structure MenuState where
  current_year : Int
  selected_round : Option Int
  selected_event : Option Event
  session_type : String
  events : List Event
  loading : Bool
  error_message : Option String
  scroll_offset : Int
  year_buttons : List YearButton
  race_buttons : List RaceButton
  session_buttons : List SessionButton
  launch_button_rect : Option Rect
  calls : List (Int × Int × String)
  closed : Bool
deriving DecidableEq, Repr

/-- The external `get_season_events`: `ok` is a normal return, `error`
models a raised exception carrying its message string. -/
def Fetch : Type := Int → Except String (List Event)

/-- Hit test `point_in_rect`: `rx <= x <= rx + rw and ry <= y <= ry + rh`. -/
def point_in_rect (p : Int × Int) (r : Rect) : Bool :=
  r.x ≤ p.1 && p.1 ≤ r.x + r.w && r.y ≤ p.2 && p.2 ≤ r.y + r.h

/-- Year-button part of `setup_ui_regions`: one button per year in
`range(2018, now_year + 1)`, at `(120 + i*110, 655, 100, 45)`, selected
iff it equals `self.current_year`. -/
def setup_year_buttons (now_year current_year : Int) : List YearButton :=
  (List.range (now_year - 2018 + 1).toNat).map fun i =>
    { year := 2018 + (i : Int)
      rect := { x := 120 + (i : Int) * 110, y := 655, w := 100, h := 45 }
      selected := (2018 + (i : Int) == current_year) }

/-- Session-button part of `setup_ui_regions` (fixed). -/
def setup_session_buttons : List SessionButton :=
  [ { type := "R", label := "Race", rect := { x := 150, y := 110, w := 140, h := 50 } },
    { type := "Q", label := "Qualifying", rect := { x := 310, y := 110, w := 140, h := 50 } },
    { type := "S", label := "Sprint", rect := { x := 470, y := 110, w := 140, h := 50 } } ]

/-- Launch-button rectangle from `setup_ui_regions` (fixed). -/
def launch_rect : Rect := { x := 700, y := 110, w := 280, h := 50 }

/-- Method `create_race_buttons`: one row per event at
`y = 580 - i*50 + scroll_offset`, rect `(50, y, 1000, 45)`,
visible iff `210 < y < 620`. -/
def create_race_buttons (events : List Event) (scroll_offset : Int) : List RaceButton :=
  events.enum.map fun p =>
    let y : Int := 580 - (p.1 : Int) * 50 + scroll_offset
    { event := p.2
      rect := { x := 50, y := y, w := 1000, h := 45 }
      visible := (210 < y && y < 620) }

/-- Method `load_events`: sets `loading`, clears `error_message`, then either
stores the fetched events, resets the scroll offset and rebuilds the race
buttons, or (on an exception) stores the message and empties `events`.
On the exception path `scroll_offset` and `race_buttons` are left as they
were, mirroring the Python control flow. -/
def load_events (fetch : Fetch) (year : Int) (s : MenuState) : MenuState :=
  let s := { s with loading := true, error_message := none }
  match fetch year with
  | .ok evs =>
      let s := { s with events := evs, scroll_offset := 0 }
      let s := { s with race_buttons := create_race_buttons s.events s.scroll_offset }
      { s with loading := false }
  | .error e =>
      { s with error_message := some ("Error loading events: " ++ e),
               events := [],
               loading := false }

/-- Method `launch_replay`: no-op when `selected_round is None`; otherwise invoke
the callback with `(current_year, selected_round, session_type)` and close. -/
def launch_replay (s : MenuState) : MenuState :=
  match s.selected_round with
  | none => s
  | some r =>
      { s with calls := s.calls ++ [(s.current_year, r, s.session_type)],
               closed := true }

/-- Handler `on_mouse_press`: hit-test year buttons, then race buttons (visible
only), then session buttons, then the launch button, acting on the first
hit and returning. -/
def on_mouse_press (fetch : Fetch) (x y : Int) (s : MenuState) : MenuState :=
  match s.year_buttons.find? (fun b => point_in_rect (x, y) b.rect) with
  | some yb =>
      let s := { s with current_year := yb.year }
      let s := { s with
        year_buttons := s.year_buttons.map fun b =>
          { b with selected := b.year == s.current_year } }
      load_events fetch s.current_year s
  | none =>
  match s.race_buttons.find? (fun b => b.visible && point_in_rect (x, y) b.rect) with
  | some rb =>
      { s with selected_event := some rb.event, selected_round := some rb.event.round }
  | none =>
  match s.session_buttons.find? (fun b => point_in_rect (x, y) b.rect) with
  | some sb => { s with session_type := sb.type }
  | none =>
  match s.launch_button_rect with
  | some r => if point_in_rect (x, y) r then launch_replay s else s
  | none => s

/-- Handler `on_mouse_scroll`: add `scroll_y * 25`, clamp to `[-max_scroll, 0]`
with `max_scroll = max(0, (len(events) - max_visible_races) * 50)`, and
rebuild the race buttons. -/
def on_mouse_scroll (scroll_y : Int) (s : MenuState) : MenuState :=
  let s := { s with scroll_offset := s.scroll_offset + scroll_y * 25 }
  let max_scroll : Int := max 0 (((s.events.length : Int) - max_visible_races) * 50)
  let s := { s with scroll_offset := max (-max_scroll) (min 0 s.scroll_offset) }
  { s with race_buttons := create_race_buttons s.events s.scroll_offset }

/-- The keys the menu reacts to. -/
inductive Key where
  | escape
  | enter
  | other
deriving DecidableEq, Repr

/-- Python truthiness of `self.selected_round`: `None` and `0` are falsy. -/
def truthy_round : Option Int → Bool
  | none => false
  | some r => r != 0

/-- Handler `on_key_press`: ESCAPE closes; ENTER launches when
`self.selected_round` is truthy (so a selected round of `0` does not
launch, by Python truthiness). -/
def on_key_press (key : Key) (s : MenuState) : MenuState :=
  match key with
  | .escape => { s with closed := true }
  | .enter => if truthy_round s.selected_round then launch_replay s else s
  | .other => s

/-- Constructor `__init__` with `datetime.datetime.now().year = now_year`: default
state fields, `setup_ui_regions()`, then `load_events(current_year)`. -/
def initState (fetch : Fetch) (now_year : Int) : MenuState :=
  let s : MenuState :=
    { current_year := now_year
      selected_round := none
      selected_event := none
      session_type := "R"
      events := []
      loading := false
      error_message := none
      scroll_offset := 0
      year_buttons := []
      race_buttons := []
      session_buttons := []
      launch_button_rect := none
      calls := []
      closed := false }
  let s := { s with
    year_buttons := setup_year_buttons now_year s.current_year
    session_buttons := setup_session_buttons
    launch_button_rect := some launch_rect }
  load_events fetch s.current_year s

end F1Menu

namespace F1Menu

/-! ## Helper lemmas about the handlers -/

/-- Reloading events never touches the selection, the session type, the
callback log or the closed flag. -/
lemma load_events_preserves (fetch : Fetch) (y : Int) (s : MenuState) :
    (load_events fetch y s).selected_round = s.selected_round ∧
    (load_events fetch y s).selected_event = s.selected_event ∧
    (load_events fetch y s).session_type = s.session_type ∧
    (load_events fetch y s).calls = s.calls ∧
    (load_events fetch y s).closed = s.closed := by
  cases h : fetch y <;> simp [load_events, h]

/-- Launching never touches the selection, the session type, the year,
the event list or the scroll offset. -/
lemma launch_replay_preserves (s : MenuState) :
    (launch_replay s).selected_round = s.selected_round ∧
    (launch_replay s).selected_event = s.selected_event ∧
    (launch_replay s).session_type = s.session_type ∧
    (launch_replay s).current_year = s.current_year ∧
    (launch_replay s).events = s.events ∧
    (launch_replay s).scroll_offset = s.scroll_offset := by
  cases h : s.selected_round <;> simp [launch_replay, h]

/-- Dispatch of `on_mouse_press` when a year button is hit first. -/
lemma press_year_hit (fetch : Fetch) (x y : Int) (s : MenuState) (yb : YearButton)
    (h : s.year_buttons.find? (fun b => point_in_rect (x, y) b.rect) = some yb) :
    on_mouse_press fetch x y s =
      load_events fetch yb.year
        { s with current_year := yb.year,
                 year_buttons := s.year_buttons.map fun b =>
                   { b with selected := b.year == yb.year } } := by
  simp only [on_mouse_press, h]

/-- Dispatch of `on_mouse_press` when no year button is hit and a visible
race row is hit. -/
lemma press_race_hit (fetch : Fetch) (x y : Int) (s : MenuState) (rb : RaceButton)
    (hy : s.year_buttons.find? (fun b => point_in_rect (x, y) b.rect) = none)
    (hr : s.race_buttons.find? (fun b => b.visible && point_in_rect (x, y) b.rect) = some rb) :
    on_mouse_press fetch x y s =
      { s with selected_event := some rb.event, selected_round := some rb.event.round } := by
  simp only [on_mouse_press, hy, hr]

/-- Dispatch of `on_mouse_press` when neither a year button nor a visible
race row is hit: the press falls through to the session and launch tests. -/
lemma press_session_launch (fetch : Fetch) (x y : Int) (s : MenuState)
    (hy : s.year_buttons.find? (fun b => point_in_rect (x, y) b.rect) = none)
    (hr : s.race_buttons.find? (fun b => b.visible && point_in_rect (x, y) b.rect) = none) :
    on_mouse_press fetch x y s =
      (match s.session_buttons.find? (fun b => point_in_rect (x, y) b.rect) with
       | some sb => { s with session_type := sb.type }
       | none =>
         match s.launch_button_rect with
         | some r => if point_in_rect (x, y) r then launch_replay s else s
         | none => s) := by
  simp only [on_mouse_press, hy, hr]

/-! ## Concrete fixtures used by witnesses and counterexamples -/

/-- A season of `n` events with rounds `1, …, n`. -/
def mkEvents (n : Nat) : List Event :=
  (List.range n).map fun i => { round := (i : Int) + 1, name := "GP", has_sprint := false }

/-- A fetch that returns 24 events for 2025 and raises for any other year. -/
def fetchA : Fetch := fun yr => if yr = 2025 then .ok (mkEvents 24) else .error "boom"

/-- A fetch that always returns a two-event season with rounds 1 and 2. -/
def fetch2 : Fetch := fun _ =>
  .ok [{ round := 1, name := "Bahrain", has_sprint := false },
       { round := 2, name := "Jeddah", has_sprint := false }]

/-- A fetch that always returns a single event with round `0`
(pre-season testing style). -/
def fetch0 : Fetch := fun _ =>
  .ok [{ round := 0, name := "Testing", has_sprint := false }]

/-- A fetch that always succeeds with an empty season. -/
def fetchOk : Fetch := fun _ => .ok []

/-- A fetch that always raises. -/
def fetchErr : Fetch := fun _ => .error "boom"

/-- Menu state right after construction with an empty season. -/
def s0 : MenuState := initState fetchOk 2025

/-- Menu constructed in 2025 on a 24-event season, then scrolled down one
notch: `scroll_offset = -25`. -/
def sScrolled : MenuState := on_mouse_scroll (-1) (initState fetchA 2025)

/-- State of `sScrolled` after a click on the 2018 year button, whose
reload raises: `events = []` but `scroll_offset` is still `-25`. -/
def sBad : MenuState := on_mouse_press fetchA 150 660 sScrolled

/-- Menu constructed on a season whose only event has round `0`, after a
click on that event's row: `selected_round = some 0`. -/
def sZero : MenuState := on_mouse_press fetch0 100 590 (initState fetch0 2025)

/-! ## Claims -/

/-- C5: if `selected_round` is `None`, then `launch_replay` is a no-op:
no callback invocation, no `close()`, no state change at all. -/
theorem C5_launch_noop_without_selection (s : MenuState)
    (h : s.selected_round = none) : launch_replay s = s := by
  simp [launch_replay, h]

/-- Witness for C5 at the freshly constructed state `s0`. -/
theorem C5_witness : launch_replay s0 = s0 :=
  C5_launch_noop_without_selection s0 (by decide)

/-- C8: if `get_season_events` raises during `load_events`, the exception
is not propagated (the embedding is a total function); `error_message`
becomes `"Error loading events: " ++ str(e)`, `events` becomes `[]`, and
`loading` is `False` afterwards. -/
theorem C8_load_error_handled (fetch : Fetch) (year : Int) (s : MenuState) (e : String)
    (h : fetch year = .error e) :
    (load_events fetch year s).error_message = some ("Error loading events: " ++ e) ∧
    (load_events fetch year s).events = [] ∧
    (load_events fetch year s).loading = false := by
  simp [load_events, h]

/-- Witness for C8 with an always-raising fetch. -/
theorem C8_witness :
    (load_events fetchErr 2025 s0).error_message = some "Error loading events: boom" ∧
    (load_events fetchErr 2025 s0).events = [] ∧
    (load_events fetchErr 2025 s0).loading = false :=
  C8_load_error_handled fetchErr 2025 s0 "boom" rfl

/-- C2: a mouse press outside every year, race, session and launch
rectangle leaves the whole menu state unchanged: no field changes, no
callback invocation, no `close()`. -/
theorem C2_press_outside_all_rects (fetch : Fetch) (x y : Int) (s : MenuState)
    (hy : ∀ b ∈ s.year_buttons, point_in_rect (x, y) b.rect = false)
    (hr : ∀ b ∈ s.race_buttons, point_in_rect (x, y) b.rect = false)
    (hs : ∀ b ∈ s.session_buttons, point_in_rect (x, y) b.rect = false)
    (hl : ∀ r, s.launch_button_rect = some r → point_in_rect (x, y) r = false) :
    on_mouse_press fetch x y s = s := by
  have hy' : s.year_buttons.find? (fun b => point_in_rect (x, y) b.rect) = none :=
    List.find?_eq_none.mpr (by intro b hb; simp [hy b hb])
  have hr' : s.race_buttons.find? (fun b => b.visible && point_in_rect (x, y) b.rect) = none :=
    List.find?_eq_none.mpr (by intro b hb; simp [hr b hb])
  have hs' : s.session_buttons.find? (fun b => point_in_rect (x, y) b.rect) = none :=
    List.find?_eq_none.mpr (by intro b hb; simp [hs b hb])
  rw [press_session_launch fetch x y s hy' hr', hs']
  cases h : s.launch_button_rect with
  | none => rfl
  | some r => simp [hl r h]

/-- Witness for C2: a click at the origin of the freshly constructed
menu hits nothing and changes nothing. -/
theorem C2_witness : on_mouse_press fetchOk 0 0 s0 = s0 :=
  C2_press_outside_all_rects fetchOk 0 0 s0 (by decide) (by decide) (by decide)
    (by intro r hr; rw [show r = launch_rect by cases hr; rfl]; decide)

end F1Menu

namespace F1Menu

/-! ## Geometry of the fixed UI regions -/

/-- No year button can catch a click strictly below the year row
(all year rects sit at `y = 655`). -/
lemma find?_year_none_of_low (l : List YearButton) (x y : Int)
    (hy : ∀ b ∈ l, b.rect.y = 655) (h : y < 655) :
    l.find? (fun b => point_in_rect (x, y) b.rect) = none := by
  apply List.find?_eq_none.mpr
  intro b hb
  simp [point_in_rect, hy b hb]
  omega

/-- No visible race row can catch a click at `y ≤ 210` when every visible
row rect starts strictly above 210. -/
lemma find?_race_none_of_below (l : List RaceButton) (x y : Int)
    (hv : ∀ b ∈ l, b.visible = true → 210 < b.rect.y) (h : y ≤ 210) :
    l.find? (fun b => b.visible && point_in_rect (x, y) b.rect) = none := by
  apply List.find?_eq_none.mpr
  intro b hb
  cases hbv : b.visible with
  | false => simp [hbv]
  | true =>
      have := hv b hb hbv
      simp [hbv, point_in_rect]
      omega

/-- Well-formedness of the UI regions, as established by
`setup_ui_regions` and `create_race_buttons`: year buttons sit on the
`y = 655` row, visible race rows start above `y = 210`, and the session
and launch regions are the fixed ones. -/
def ui_wf (s : MenuState) : Prop :=
  (∀ b ∈ s.year_buttons, b.rect.y = 655) ∧
  (∀ b ∈ s.race_buttons, b.visible = true → 210 < b.rect.y) ∧
  s.session_buttons = setup_session_buttons ∧
  s.launch_button_rect = some launch_rect

instance (s : MenuState) : Decidable (ui_wf s) := by
  unfold ui_wf; infer_instance

/-- Menu constructed in 2025 on the 24-event season, after a click on the
row of round 5 (the row at `y = 380`): `selected_round = some 5`. -/
def sFive : MenuState := on_mouse_press fetchA 100 390 (initState fetchA 2025)

/-- C1: in a well-formed state with `selected_round = some 5`, a mouse
press anywhere inside the launch rectangle invokes the callback exactly
once, synchronously, with `(current_year, 5, session_type)`, and calls
`close()` on the window. -/
theorem C1_launch_click_fires_callback (fetch : Fetch) (x y : Int) (s : MenuState)
    (hwf : ui_wf s) (hsel : s.selected_round = some 5)
    (hpt : point_in_rect (x, y) launch_rect = true) :
    (on_mouse_press fetch x y s).calls = s.calls ++ [(s.current_year, 5, s.session_type)] ∧
    (on_mouse_press fetch x y s).closed = true := by
  obtain ⟨hyw, hvw, hsw, hlw⟩ := hwf
  have hxy : 700 ≤ x ∧ x ≤ 980 ∧ 110 ≤ y ∧ y ≤ 160 := by
    simpa [point_in_rect, launch_rect, and_assoc] using hpt
  obtain ⟨h1, h2, h3, h4⟩ := hxy
  have hy' := find?_year_none_of_low s.year_buttons x y hyw (by omega)
  have hr' := find?_race_none_of_below s.race_buttons x y hvw (by omega)
  have hs' : s.session_buttons.find? (fun b => point_in_rect (x, y) b.rect) = none := by
    rw [hsw]
    apply List.find?_eq_none.mpr
    intro b hb
    simp [setup_session_buttons] at hb
    rcases hb with rfl | rfl | rfl <;> (simp [point_in_rect]; omega)
  rw [press_session_launch fetch x y s hy' hr']
  simp only [hs', hlw, if_pos hpt]
  simp [launch_replay, hsel]

/-- Witness for C1: round 5 selected by clicking its row, then a click at
`(750, 130)` inside the launch rectangle. -/
theorem C1_witness :
    (on_mouse_press fetchA 750 130 sFive).calls =
      sFive.calls ++ [(sFive.current_year, 5, sFive.session_type)] ∧
    (on_mouse_press fetchA 750 130 sFive).closed = true :=
  C1_launch_click_fires_callback fetchA 750 130 sFive (by decide) (by decide) (by decide)

/-- C6: on the two-event season (rounds 1 and 2), any mouse press inside
the second row's rectangle `(50, 530, 1000, 45)` selects round 2 and its
event. -/
theorem C6_second_row_click (x y : Int)
    (hpt : point_in_rect (x, y) { x := 50, y := 530, w := 1000, h := 45 } = true) :
    (on_mouse_press fetch2 x y (initState fetch2 2025)).selected_round = some 2 ∧
    (on_mouse_press fetch2 x y (initState fetch2 2025)).selected_event =
      some { round := 2, name := "Jeddah", has_sprint := false } := by
  have hxy : 50 ≤ x ∧ x ≤ 1050 ∧ 530 ≤ y ∧ y ≤ 575 := by
    simpa [point_in_rect, and_assoc] using hpt
  obtain ⟨h1, h2, h3, h4⟩ := hxy
  have hy655 : ∀ b ∈ (initState fetch2 2025).year_buttons, b.rect.y = 655 := by decide
  have hy' := find?_year_none_of_low _ x y hy655 (by omega)
  have hrb : (initState fetch2 2025).race_buttons =
      [{ event := { round := 1, name := "Bahrain", has_sprint := false },
         rect := { x := 50, y := 580, w := 1000, h := 45 }, visible := true },
       { event := { round := 2, name := "Jeddah", has_sprint := false },
         rect := { x := 50, y := 530, w := 1000, h := 45 }, visible := true }] := by decide
  have hb0 : point_in_rect (x, y) { x := 50, y := 580, w := 1000, h := 45 } = false := by
    simp [point_in_rect]; omega
  have hr' : (initState fetch2 2025).race_buttons.find?
      (fun b => b.visible && point_in_rect (x, y) b.rect) =
      some { event := { round := 2, name := "Jeddah", has_sprint := false },
             rect := { x := 50, y := 530, w := 1000, h := 45 }, visible := true } := by
    rw [hrb]
    simp [List.find?, hb0, hpt]
  rw [press_race_hit fetch2 x y _ _ hy' hr']
  exact ⟨rfl, rfl⟩

/-- Witness for C6 at the concrete click point `(100, 540)`. -/
theorem C6_witness :
    (on_mouse_press fetch2 100 540 (initState fetch2 2025)).selected_round = some 2 ∧
    (on_mouse_press fetch2 100 540 (initState fetch2 2025)).selected_event =
      some { round := 2, name := "Jeddah", has_sprint := false } :=
  C6_second_row_click 100 540 (by decide)

end F1Menu

namespace F1Menu

/-! ## Scroll-offset invariant (claim C3) -/

/-- Claimed invariant: `scroll_offset ∈ [-max_scroll, 0]` with
`max_scroll = max(0, (len(events) - max_visible_races) * 50)`. -/
def scroll_inv (s : MenuState) : Prop :=
  -(max 0 (((s.events.length : Int) - max_visible_races) * 50)) ≤ s.scroll_offset ∧
  s.scroll_offset ≤ 0

instance (s : MenuState) : Decidable (scroll_inv s) := by
  unfold scroll_inv; infer_instance

/-- A state with zero scroll offset satisfies the invariant. -/
lemma scroll_inv_of_zero (s : MenuState) (h : s.scroll_offset = 0) : scroll_inv s :=
  ⟨by rw [h]; exact neg_nonpos.mpr (le_max_left 0 _), by rw [h]⟩

/-- A successful reload resets the scroll offset to zero. -/
lemma load_events_ok_scroll (fetch : Fetch) (y : Int) (s : MenuState) (evs : List Event)
    (h : fetch y = .ok evs) : (load_events fetch y s).scroll_offset = 0 := by
  simp [load_events, h]

/-- Reloading with zero scroll offset keeps it at zero (on failure the
offset is untouched). -/
lemma load_events_zero_scroll (fetch : Fetch) (y : Int) (s : MenuState)
    (h : s.scroll_offset = 0) : (load_events fetch y s).scroll_offset = 0 := by
  cases hf : fetch y <;> simp [load_events, hf, h]

/-- Launching preserves the scroll invariant. -/
lemma scroll_inv_launch (s : MenuState) (hs : scroll_inv s) : scroll_inv (launch_replay s) := by
  cases h : s.selected_round <;> simpa [launch_replay, h, scroll_inv] using hs

/-- C3 counterexample: `sBad` is reached by menu operations
(construction in 2025 on a 24-event season, one scroll notch down, then
a press on the 2018 year button whose reload raises), yet its scroll
offset `-25` lies outside `[-max_scroll, 0] = [0, 0]` because `events`
is now empty. -/
theorem C3_counterexample : ¬ scroll_inv sBad := by decide

/-- C3 amended: the invariant holds after initialization and after any
mouse scroll unconditionally, and it is preserved by any mouse press
provided every `get_season_events` call succeeds; a press whose reload
raises can leave `scroll_offset` outside the interval. -/
theorem C3_amended_scroll_clamped (fetch : Fetch) (now_year x y scroll_y : Int)
    (s : MenuState) :
    scroll_inv (initState fetch now_year) ∧
    scroll_inv (on_mouse_scroll scroll_y s) ∧
    ((∀ yr, ∃ evs, fetch yr = .ok evs) → scroll_inv s →
      scroll_inv (on_mouse_press fetch x y s)) := by
  refine ⟨?_, ?_, ?_⟩
  · exact scroll_inv_of_zero _ (load_events_zero_scroll fetch _ _ rfl)
  · refine ⟨le_max_left _ _, max_le (neg_nonpos.mpr (le_max_left 0 _)) (min_le_left _ _)⟩
  · intro hfetch hs
    cases hy : s.year_buttons.find? (fun b => point_in_rect (x, y) b.rect) with
    | some yb =>
        rw [press_year_hit fetch x y s yb hy]
        obtain ⟨evs, hevs⟩ := hfetch yb.year
        exact scroll_inv_of_zero _ (load_events_ok_scroll fetch _ _ evs hevs)
    | none =>
        cases hr : s.race_buttons.find? (fun b => b.visible && point_in_rect (x, y) b.rect) with
        | some rb =>
            rw [press_race_hit fetch x y s rb hy hr]
            exact hs
        | none =>
            rw [press_session_launch fetch x y s hy hr]
            cases hsess : s.session_buttons.find? (fun b => point_in_rect (x, y) b.rect) with
            | some sb => exact hs
            | none =>
                cases hl : s.launch_button_rect with
                | none => exact hs
                | some r =>
                    by_cases hp : point_in_rect (x, y) r = true
                    · simp only [hp, if_true]
                      exact scroll_inv_launch s hs
                    · simp only [Bool.not_eq_true] at hp
                      simp only [hp, Bool.false_eq_true, if_false]
                      exact hs

/-- Witness for C3 at the empty-season menu. -/
theorem C3_witness :
    scroll_inv (initState fetchOk 2025) ∧
    scroll_inv (on_mouse_scroll (-1) s0) ∧
    scroll_inv (on_mouse_press fetchOk 0 0 s0) :=
  ⟨(C3_amended_scroll_clamped fetchOk 2025 0 0 (-1) s0).1,
   (C3_amended_scroll_clamped fetchOk 2025 0 0 (-1) s0).2.1,
   (C3_amended_scroll_clamped fetchOk 2025 0 0 (-1) s0).2.2
     (fun _ => ⟨[], rfl⟩) (by decide)⟩

/-! ## Year presses (claim C4) -/

/-- C4 counterexample: the press at `(150, 660)` lands inside the 2018
year button of `sScrolled`, the reload for 2018 raises, and the scroll
offset stays at `-25` instead of being reset to zero. -/
theorem C4_counterexample :
    point_in_rect (150, 660) { x := 120, y := 655, w := 100, h := 45 } = true ∧
    { year := 2018, rect := { x := 120, y := 655, w := 100, h := 45 },
      selected := false } ∈ sScrolled.year_buttons ∧
    (on_mouse_press fetchA 150 660 sScrolled).current_year = 2018 ∧
    (on_mouse_press fetchA 150 660 sScrolled).scroll_offset = -25 ∧
    ¬ (on_mouse_press fetchA 150 660 sScrolled).scroll_offset = 0 := by decide

/-- C4 amended: a press whose first hit is a year button sets
`current_year` to that button's year and reloads through
`get_season_events`; the scroll offset is reset to zero when the reload
succeeds, while a raising reload leaves it unchanged (and empties
`events`). -/
theorem C4_amended_year_press (fetch : Fetch) (x y : Int) (s : MenuState) (yb : YearButton)
    (h : s.year_buttons.find? (fun b => point_in_rect (x, y) b.rect) = some yb) :
    (on_mouse_press fetch x y s).current_year = yb.year ∧
    (∀ evs, fetch yb.year = .ok evs →
      (on_mouse_press fetch x y s).events = evs ∧
      (on_mouse_press fetch x y s).scroll_offset = 0) ∧
    (∀ e, fetch yb.year = .error e →
      (on_mouse_press fetch x y s).events = [] ∧
      (on_mouse_press fetch x y s).scroll_offset = s.scroll_offset) := by
  rw [press_year_hit fetch x y s yb h]
  refine ⟨?_, ?_, ?_⟩
  · cases hf : fetch yb.year <;> simp [load_events, hf]
  · intro evs hevs; simp [load_events, hevs]
  · intro e he; simp [load_events, he]

/-- Witness for C4 at the 2018 year button of `sScrolled`. -/
theorem C4_witness :
    (on_mouse_press fetchA 150 660 sScrolled).current_year = 2018 ∧
    (on_mouse_press fetchA 150 660 sScrolled).events = [] ∧
    (on_mouse_press fetchA 150 660 sScrolled).scroll_offset = sScrolled.scroll_offset :=
  let h := C4_amended_year_press fetchA 150 660 sScrolled
    { year := 2018, rect := { x := 120, y := 655, w := 100, h := 45 }, selected := false }
    (by decide)
  ⟨h.1, (h.2.2 "boom" rfl).1, (h.2.2 "boom" rfl).2⟩

/-! ## Key presses (claim C9) -/

/-- C9 counterexample: in `sZero` a round is selected
(`selected_round = some 0`), yet pressing ENTER changes nothing — no
callback, no `close()` — because Python's `and self.selected_round`
treats the integer `0` as falsy. -/
theorem C9_counterexample :
    sZero.selected_round = some 0 ∧
    sZero.calls = [] ∧
    sZero.closed = false ∧
    on_key_press .enter sZero = sZero := by decide

/-- C9 amended: ESCAPE closes the window without invoking the callback,
regardless of selection state; ENTER invokes the callback once and closes
exactly when the selected round is set and nonzero (a selected round of
`0` is falsy in Python and does not launch). -/
theorem C9_amended_key_press (s : MenuState) :
    ((on_key_press .escape s).closed = true ∧ (on_key_press .escape s).calls = s.calls) ∧
    (∀ r : Int, s.selected_round = some r → r ≠ 0 →
      (on_key_press .enter s).calls = s.calls ++ [(s.current_year, r, s.session_type)] ∧
      (on_key_press .enter s).closed = true) ∧
    (s.selected_round = none → on_key_press .enter s = s) ∧
    (s.selected_round = some 0 → on_key_press .enter s = s) := by
  refine ⟨⟨rfl, rfl⟩, ?_, ?_, ?_⟩
  · intro r hr hr0
    simp [on_key_press, truthy_round, hr, hr0, launch_replay]
  · intro h; simp [on_key_press, truthy_round, h]
  · intro h; simp [on_key_press, truthy_round, h]

/-- Witness for C9: ESCAPE and a launching ENTER on `sFive`, a dead
ENTER on the unselected `s0` and on the round-zero `sZero`. -/
theorem C9_witness :
    ((on_key_press .escape sFive).closed = true ∧
     (on_key_press .escape sFive).calls = sFive.calls) ∧
    ((on_key_press .enter sFive).calls =
       sFive.calls ++ [(sFive.current_year, 5, sFive.session_type)] ∧
     (on_key_press .enter sFive).closed = true) ∧
    on_key_press .enter s0 = s0 ∧
    on_key_press .enter sZero = sZero :=
  ⟨(C9_amended_key_press sFive).1,
   (C9_amended_key_press sFive).2.1 5 (by decide) (by decide),
   (C9_amended_key_press s0).2.2.1 (by decide),
   (C9_amended_key_press sZero).2.2.2 (by decide)⟩

end F1Menu

namespace F1Menu

/-! ## Hit-test priority (claim C7) -/

/-- A predicate false on every element of a list makes `find?` miss. -/
lemma find?_eq_none_of_all_false {α : Type} (l : List α) (p : α → Bool)
    (h : ∀ b ∈ l, p b = false) : l.find? p = none :=
  List.find?_eq_none.mpr fun b hb => by simp [h b hb]

/-- A predicate true somewhere in a list makes `find?` hit. -/
lemma find?_exists_some {α : Type} (l : List α) (p : α → Bool)
    (h : ∃ b ∈ l, p b = true) : ∃ b, l.find? p = some b :=
  Option.isSome_iff_exists.mp (List.find?_isSome.mpr h)

/-- C7: clicks are hit-tested against year buttons, then visible race
rows, then session buttons, then the launch button, in that priority
order.  Whenever a higher-priority group contains the click point, the
lower-priority groups are not acted on: a year hit never changes the
selection, the session type, the callback log or the closed flag; a race
hit (with no year hit) never changes the year, the events, the session
type, the callback log or the closed flag; a session hit (with no year
or race hit) only changes the session type; and only when all three
higher groups miss is the launch button consulted. -/
theorem C7_priority_order (fetch : Fetch) (s : MenuState) (x y : Int) :
    ((∃ b ∈ s.year_buttons, point_in_rect (x, y) b.rect = true) →
      ((on_mouse_press fetch x y s).selected_round = s.selected_round ∧
       (on_mouse_press fetch x y s).selected_event = s.selected_event ∧
       (on_mouse_press fetch x y s).session_type = s.session_type ∧
       (on_mouse_press fetch x y s).calls = s.calls ∧
       (on_mouse_press fetch x y s).closed = s.closed)) ∧
    ((∀ b ∈ s.year_buttons, point_in_rect (x, y) b.rect = false) →
      (∃ b ∈ s.race_buttons, (b.visible && point_in_rect (x, y) b.rect) = true) →
      ((on_mouse_press fetch x y s).current_year = s.current_year ∧
       (on_mouse_press fetch x y s).events = s.events ∧
       (on_mouse_press fetch x y s).session_type = s.session_type ∧
       (on_mouse_press fetch x y s).calls = s.calls ∧
       (on_mouse_press fetch x y s).closed = s.closed)) ∧
    ((∀ b ∈ s.year_buttons, point_in_rect (x, y) b.rect = false) →
      (∀ b ∈ s.race_buttons, (b.visible && point_in_rect (x, y) b.rect) = false) →
      (∃ b ∈ s.session_buttons, point_in_rect (x, y) b.rect = true) →
      ((on_mouse_press fetch x y s).selected_round = s.selected_round ∧
       (on_mouse_press fetch x y s).selected_event = s.selected_event ∧
       (on_mouse_press fetch x y s).current_year = s.current_year ∧
       (on_mouse_press fetch x y s).events = s.events ∧
       (on_mouse_press fetch x y s).calls = s.calls ∧
       (on_mouse_press fetch x y s).closed = s.closed)) ∧
    ((∀ b ∈ s.year_buttons, point_in_rect (x, y) b.rect = false) →
      (∀ b ∈ s.race_buttons, (b.visible && point_in_rect (x, y) b.rect) = false) →
      (∀ b ∈ s.session_buttons, point_in_rect (x, y) b.rect = false) →
      on_mouse_press fetch x y s =
        (match s.launch_button_rect with
         | some r => if point_in_rect (x, y) r then launch_replay s else s
         | none => s)) := by
  refine ⟨?_, ?_, ?_, ?_⟩
  · intro hex
    obtain ⟨yb, hy⟩ := find?_exists_some _ _ hex
    rw [press_year_hit fetch x y s yb hy]
    obtain ⟨h1, h2, h3, h4, h5⟩ := load_events_preserves fetch yb.year
      { s with current_year := yb.year,
               year_buttons := s.year_buttons.map fun b =>
                 { b with selected := b.year == yb.year } }
    exact ⟨h1, h2, h3, h4, h5⟩
  · intro hyall hex
    obtain ⟨rb, hr⟩ := find?_exists_some _ _ hex
    rw [press_race_hit fetch x y s rb (find?_eq_none_of_all_false _ _ hyall) hr]
    exact ⟨rfl, rfl, rfl, rfl, rfl⟩
  · intro hyall hrall hex
    obtain ⟨sb, hsess⟩ := find?_exists_some _ _ hex
    rw [press_session_launch fetch x y s (find?_eq_none_of_all_false _ _ hyall)
      (find?_eq_none_of_all_false _ _ hrall)]
    simp [hsess]
  · intro hyall hrall hsall
    rw [press_session_launch fetch x y s (find?_eq_none_of_all_false _ _ hyall)
      (find?_eq_none_of_all_false _ _ hrall)]
    simp only [find?_eq_none_of_all_false _ _ hsall]

/-- A synthetic state whose year, race, session and launch rectangles are
nested and overlapping, to exercise the priority order at shared points. -/
def sOverlap : MenuState :=
  { current_year := 2025
    selected_round := none
    selected_event := none
    session_type := "R"
    events := []
    loading := false
    error_message := none
    scroll_offset := 0
    year_buttons := [{ year := 2020, rect := { x := 0, y := 0, w := 100, h := 100 },
                       selected := false }]
    race_buttons := [{ event := { round := 1, name := "GP", has_sprint := false },
                       rect := { x := 0, y := 0, w := 200, h := 200 }, visible := true }]
    session_buttons := [{ type := "Q", label := "Qualifying",
                          rect := { x := 0, y := 0, w := 300, h := 300 } }]
    launch_button_rect := some { x := 0, y := 0, w := 400, h := 400 }
    calls := []
    closed := false }

/-- Witness for C7 on `sOverlap`: the point `(10, 10)` lies in all four
groups and only the year action fires; `(150, 150)` lies in race, session
and launch and only the race action fires; `(250, 250)` lies in session
and launch and only the session action fires; `(350, 350)` lies only in
the launch rectangle. -/
theorem C7_witness :
    ((on_mouse_press fetchOk 10 10 sOverlap).selected_round = sOverlap.selected_round ∧
     (on_mouse_press fetchOk 10 10 sOverlap).selected_event = sOverlap.selected_event ∧
     (on_mouse_press fetchOk 10 10 sOverlap).session_type = sOverlap.session_type ∧
     (on_mouse_press fetchOk 10 10 sOverlap).calls = sOverlap.calls ∧
     (on_mouse_press fetchOk 10 10 sOverlap).closed = sOverlap.closed) ∧
    ((on_mouse_press fetchOk 150 150 sOverlap).current_year = sOverlap.current_year ∧
     (on_mouse_press fetchOk 150 150 sOverlap).events = sOverlap.events ∧
     (on_mouse_press fetchOk 150 150 sOverlap).session_type = sOverlap.session_type ∧
     (on_mouse_press fetchOk 150 150 sOverlap).calls = sOverlap.calls ∧
     (on_mouse_press fetchOk 150 150 sOverlap).closed = sOverlap.closed) ∧
    ((on_mouse_press fetchOk 250 250 sOverlap).selected_round = sOverlap.selected_round ∧
     (on_mouse_press fetchOk 250 250 sOverlap).selected_event = sOverlap.selected_event ∧
     (on_mouse_press fetchOk 250 250 sOverlap).current_year = sOverlap.current_year ∧
     (on_mouse_press fetchOk 250 250 sOverlap).events = sOverlap.events ∧
     (on_mouse_press fetchOk 250 250 sOverlap).calls = sOverlap.calls ∧
     (on_mouse_press fetchOk 250 250 sOverlap).closed = sOverlap.closed) ∧
    on_mouse_press fetchOk 350 350 sOverlap =
      (match sOverlap.launch_button_rect with
       | some r => if point_in_rect (350, 350) r then launch_replay sOverlap else sOverlap
       | none => sOverlap) :=
  ⟨(C7_priority_order fetchOk sOverlap 10 10).1 (by decide),
   (C7_priority_order fetchOk sOverlap 150 150).2.1 (by decide) (by decide),
   (C7_priority_order fetchOk sOverlap 250 250).2.2.1 (by decide) (by decide) (by decide),
   (C7_priority_order fetchOk sOverlap 350 350).2.2.2 (by decide) (by decide) (by decide)⟩

/-! ## Row visibility (claim C10) -/

/-- Every race button produced by `create_race_buttons` is the row of
some index `j`: its rect sits at `y = 580 - j*50 + scroll_offset` and its
visible flag is exactly `210 < y < 620` for that `y`. -/
lemma mem_create_race_buttons {evs : List Event} {off : Int} {b : RaceButton}
    (hb : b ∈ create_race_buttons evs off) :
    ∃ j, j < evs.length ∧
      b.rect = { x := 50, y := 580 - (j : Int) * 50 + off, w := 1000, h := 45 } ∧
      b.visible = (210 < 580 - (j : Int) * 50 + off &&
                   580 - (j : Int) * 50 + off < 620) := by
  unfold create_race_buttons at hb
  rw [List.mem_map] at hb
  obtain ⟨p, hp, rfl⟩ := hb
  rw [List.mem_enum_iff_getElem?] at hp
  exact ⟨p.1, (List.getElem?_eq_some_iff.mp hp).choose, rfl, rfl⟩

/-- C10: when the race buttons are the ones built by
`create_race_buttons`, a row whose rect `y`-coordinate
`580 - 50*i + scroll_offset` fails `210 < y < 620` has its visible flag
false, so a press inside that row's rectangle (hitting no year button)
never sets `selected_round` or `selected_event`; the click falls through
to the session and launch hit-tests. -/
theorem C10_invisible_row_not_selectable (fetch : Fetch) (x y : Int) (s : MenuState) (i : Nat)
    (hwf : s.race_buttons = create_race_buttons s.events s.scroll_offset)
    (hi : i < s.events.length)
    (hinvis : ¬ (210 < 580 - (i : Int) * 50 + s.scroll_offset ∧
                 580 - (i : Int) * 50 + s.scroll_offset < 620))
    (hpt : point_in_rect (x, y)
      { x := 50, y := 580 - (i : Int) * 50 + s.scroll_offset, w := 1000, h := 45 } = true)
    (hnoyear : ∀ b ∈ s.year_buttons, point_in_rect (x, y) b.rect = false) :
    (on_mouse_press fetch x y s).selected_round = s.selected_round ∧
    (on_mouse_press fetch x y s).selected_event = s.selected_event ∧
    on_mouse_press fetch x y s =
      (match s.session_buttons.find? (fun b => point_in_rect (x, y) b.rect) with
       | some sb => { s with session_type := sb.type }
       | none =>
         match s.launch_button_rect with
         | some r => if point_in_rect (x, y) r then launch_replay s else s
         | none => s) := by
  have hy' := find?_eq_none_of_all_false _ _ hnoyear
  simp only [point_in_rect] at hpt
  have hr' : s.race_buttons.find? (fun b => b.visible && point_in_rect (x, y) b.rect) = none := by
    apply find?_eq_none_of_all_false
    intro b hb
    rw [hwf] at hb
    obtain ⟨j, hj, hrect, hvisb⟩ := mem_create_race_buttons hb
    by_cases hij : j = i
    · subst hij
      have hvf : b.visible = false := by
        rw [hvisb]
        simp only [Bool.and_eq_false_iff, decide_eq_false_iff_not]
        omega
      simp [hvf]
    · have hptj : point_in_rect (x, y) b.rect = false := by
        rw [hrect]
        simp only [point_in_rect, Bool.and_eq_false_iff, decide_eq_false_iff_not]
        simp only [Bool.and_eq_true, decide_eq_true_eq] at hpt
        have : (j : Int) ≠ (i : Int) := by exact_mod_cast hij
        omega
      simp [hptj]
  have hmain := press_session_launch fetch x y s hy' hr'
  refine ⟨?_, ?_, hmain⟩
  · rw [hmain]
    split
    · rfl
    · split
      · split
        · exact (launch_replay_preserves s).1
        · rfl
      · rfl
  · rw [hmain]
    split
    · rfl
    · split
      · split
        · exact (launch_replay_preserves s).2.1
        · rfl
      · rfl

/-- Witness for C10 on `sScrolled`: row 8 sits at `y = 155`, is invisible,
and a click at `(60, 170)` inside its rectangle leaves the selection
untouched. -/
theorem C10_witness :
    (on_mouse_press fetchA 60 170 sScrolled).selected_round = sScrolled.selected_round ∧
    (on_mouse_press fetchA 60 170 sScrolled).selected_event = sScrolled.selected_event :=
  let h := C10_invisible_row_not_selectable fetchA 60 170 sScrolled 8
    (by decide) (by decide) (by decide) (by decide) (by decide)
  ⟨h.1, h.2.1⟩

end F1Menu
